import Mathlib

/-!
# Verification of the metro_EMS SNMP discovery / session core

A shallow embedding, in Lean 4, of the SNMP device-discovery and
session-management core of the `metro_EMS` repository
(`Backend_for_station_Radios/`).  Python byte strings are modelled as
`List Nat` (one entry per byte), Python `str` values as Lean `String`
(or, inside the raw BER parser, as the list of bytes of their rendering),
Python `None`-able values as `Option`, and network I/O as explicit
oracle functions passed to the embedded operations.

Embedded source files:
* `snmp_client.py` — the pysnmp-backed `snmp_get` (version fallback),
  the env clamping helpers, and the raw-socket BER fallback encoder
  and parser;
* `network_scanner.py` — `scan_for_snmp_devices` (thread batching and
  host-limit accounting) and the per-IP classification in `scan_ip`;
* `real_backend.py` — the in-memory session registry (`start_session`,
  `refresh_session_summary`) and the SNMPv3 credential prober
  (`probe_snmp_v3`).
-/

namespace MetroEMS

/-! ## Python-style helpers

Python truthiness on optional strings: `None` and `""` are falsy.
`pyOrOpt` is Python's `x or y` on such values.
-/

/-- Truthiness of a Python `Optional[str]`: `None` and `""` are falsy. -/
def pyTruthyOpt : Option String → Bool
  | none => false
  | some s => !(s == "")

/-- Python `x or y` on `Optional[str]` values. -/
def pyOrOpt (a b : Option String) : Option String :=
  if pyTruthyOpt a then a else b

/-- Python `x or d` where the fallback `d` is a plain string. -/
def pyGetOr (o : Option String) (d : String) : String :=
  match o with
  | some s => if s == "" then d else s
  | none => d

/-- Bytes of a Python `str` (ASCII/UTF-8 code points; the strings that
appear in this development are ASCII, where `encode`/`decode` are the
identity on these code points). -/
def strBytes (s : String) : List Nat :=
  s.data.map Char.toNat

/-- Python `str.strip()` on the character list: drop leading and trailing
whitespace. -/
def stripChars (l : List Char) : List Char :=
  ((l.dropWhile Char.isWhitespace).reverse.dropWhile Char.isWhitespace).reverse

/-- Python `str.strip()`. -/
def stripStr (s : String) : String := ⟨stripChars s.data⟩

/-- Python `str.split(sep)` for a one-character separator (`"a.b".split('.')
= ["a", "b"]`, `"".split('.') = [""]`). -/
def splitOnChar (sep : Char) : List Char → List (List Char)
  | [] => [[]]
  | c :: rest =>
    let r := splitOnChar sep rest
    if c = sep then [] :: r
    else
      match r with
      | [] => [[c]]
      | h :: t => (c :: h) :: t

/-- Python `int(x)` on a decimal digit string, `none` where `int` would
raise (the OID fields this program passes are always plain digits). -/
def parseNatChars (l : List Char) : Option Nat :=
  if l ≠ [] ∧ l.all Char.isDigit then
    some (l.foldl (fun a c => a * 10 + (c.toNat - 48)) 0)
  else none

/-! ## `snmp_client.py` — raw BER fallback encoder

The no-pysnmp branch of `snmp_client.py` (lines 146–299).  Bytes are
`Nat`s; `x & 0x7F` is written `x % 128` and `x & 0x80 != 0` is written
`Nat.testBit x 7`, which are the same functions on `Nat`.
-/

/-- Little-endian base-256 digits; the body of the `while length > 0`
loops in `_encode_length` / `_encode_integer`.  The first argument is
structural-recursion fuel: `fuel ≥ n` always suffices because the value
shrinks by a factor of 256 each round. -/
def natBytesLEAux : Nat → Nat → List Nat
  | _, 0 => []
  | 0, _ + 1 => []
  | fuel + 1, n + 1 => ((n + 1) % 256) :: natBytesLEAux fuel ((n + 1) / 256)

/-- Little-endian base-256 digits of `n` (empty for `0`). -/
def natBytesLE (n : Nat) : List Nat := natBytesLEAux n n

/-- `_encode_length`: short form below 128, else `0x80 | count` followed by
big-endian length bytes. -/
def encodeLength (length : Nat) : List Nat :=
  if length < 128 then [length]
  else
    let out := (natBytesLE length).reverse
    (128 ||| out.length) :: out

/-- `_encode_integer` (tag `0x02`).  The negative branch of the source is a
no-op (`pass`), so only the absolute value is ever encoded, mirrored here. -/
def encodeInteger (value : Int) : List Nat :=
  let content :=
    if value = 0 then [0]
    else
      let c := (natBytesLE value.natAbs).reverse
      if Nat.testBit (c.getD 0 0) 7 then 0 :: c else c
  2 :: encodeLength content.length ++ content

/-- `_encode_octet_string` (tag `0x04`). -/
def encodeOctetString (data : List Nat) : List Nat :=
  4 :: encodeLength data.length ++ data

/-- `_encode_null` (tag `0x05`). -/
def encodeNull : List Nat := [5, 0]

/-- Little-endian base-128 groups with the continuation bit `0x80` set on
every group; the `while p > 0` stack loop in `_encode_oid` (the first
argument is structural-recursion fuel, `fuel ≥ p` suffices). -/
def base7LEAux : Nat → Nat → List Nat
  | _, 0 => []
  | 0, _ + 1 => []
  | fuel + 1, p + 1 => (128 ||| ((p + 1) % 128)) :: base7LEAux fuel ((p + 1) / 128)

/-- Little-endian base-128 groups of `p` with the `0x80` bit set. -/
def base7LE (p : Nat) : List Nat := base7LEAux p p

/-- `stack[0] &= 0x7F`: clear the continuation bit on the first (least
significant) group. -/
def clearHeadBit : List Nat → List Nat
  | [] => []
  | h :: t => (h % 128) :: t

/-- Encoding of a single OID sub-identifier (`p < 128` direct, else the
reversed base-128 stack with the last group's `0x80` bit cleared). -/
def encodeSubId (p : Nat) : List Nat :=
  if p < 128 then [p] else (clearHeadBit (base7LE p)).reverse

/-- `_encode_oid` on the already-split numeric parts. -/
def encodeOidFromParts (parts : List Nat) : List Nat :=
  if parts.length < 2 then [6, 1, 0]
  else
    let firstByte := 40 * parts.getD 0 0 + parts.getD 1 0
    let content := firstByte :: (parts.drop 2).flatMap encodeSubId
    6 :: encodeLength content.length ++ content

/-- `_encode_oid`: split the dotted OID string on `.`, dropping empty
fields (`int(x) for x in oid.strip().split('.') if x`; the parts that
occur in this program are all numeric). -/
def encodeOid (oid : String) : List Nat :=
  encodeOidFromParts
    (((splitOnChar '.' (stripChars oid.data)).filter (· ≠ [])).filterMap parseNatChars)

/-- `_wrap_sequence` (tag `0x30`). -/
def wrapSequence (content : List Nat) : List Nat :=
  48 :: encodeLength content.length ++ content

/-- `_build_get_request`: SNMP v2c GetRequest = SEQUENCE(version = 1,
community OCTET STRING, `0xA0` PDU(request-id, error-status 0,
error-index 0, var-bind list [(oid, NULL)])). -/
def buildGetRequest (community : String) (oid : String) (requestId : Int) : List Nat :=
  let version := encodeInteger 1
  let comm := encodeOctetString (strBytes community)
  let vb := wrapSequence (encodeOid oid ++ encodeNull)
  let vbl := wrapSequence vb
  let pduBody := encodeInteger requestId ++ encodeInteger 0 ++ encodeInteger 0 ++ vbl
  let pdu := 160 :: encodeLength pduBody.length ++ pduBody
  wrapSequence (version ++ comm ++ pdu)

/-! ## `snmp_client.py` — raw BER fallback parser (`_parse_response`) -/

/-- `data.find(pattern)`: index of the first occurrence of `pattern` as a
contiguous sublist, scanning left to right. -/
def findSublistAux (pat : List Nat) : Nat → List Nat → Option Nat
  | i, [] => if pat.isPrefixOf ([] : List Nat) then some i else none
  | i, l@(_ :: t) => if pat.isPrefixOf l then some i else findSublistAux pat (i + 1) t

/-- `data.find(pattern)` returning `none` instead of `-1`. -/
def findSublist (data pat : List Nat) : Option Nat :=
  findSublistAux pat 0 data

/-- Python `str.strip('\x00')`: drop leading and trailing NUL bytes. -/
def stripNulls (l : List Nat) : List Nat :=
  ((l.dropWhile (· = 0)).reverse.dropWhile (· = 0)).reverse

/-- Decimal rendering of a `Nat`, as bytes (`str(val)` in the integer /
TimeTicks branches). -/
def natToDecBytes (n : Nat) : List Nat :=
  strBytes (toString n)

/-- The `0x06` branch: naive OID value decoder, accumulating 7-bit groups. -/
def oidDecodeLoop : List Nat → Nat → List String
  | [], _ => []
  | b :: rest, sub =>
    let sub' := (sub <<< 7) ||| (b % 128)
    if Nat.testBit b 7 then oidDecodeLoop rest sub'
    else toString sub' :: oidDecodeLoop rest 0

/-- Decode the value TLV found after the requested OID, given its tag, its
declared length, and the (possibly clamped, as with a Python slice) value
bytes.  Returns the rendered string as bytes, or `none`. -/
def decodeTLV (tag : Nat) (length : Nat) (valueBytes : List Nat) : Option (List Nat) :=
  if tag = 4 then
    -- OCTET STRING: decode, strip NULs, `or None`
    let s := stripNulls valueBytes
    if s.isEmpty then none else some s
  else if tag = 2 ∧ length ≤ 4 then
    some (natToDecBytes (valueBytes.foldl (fun a b => (a <<< 8) ||| b) 0))
  else if tag = 67 then
    -- 0x43 TimeTicks, treated as an integer
    some (natToDecBytes (valueBytes.foldl (fun a b => (a <<< 8) ||| b) 0))
  else if tag = 6 then
    match valueBytes with
    | [] => none
    | first :: rest =>
      let parts := toString (first / 40) :: toString (first % 40) :: oidDecodeLoop rest 0
      some (strBytes (String.intercalate "." parts))
  else none

/-- The tail of `_parse_response` from `value_pos` on (all source indices
are offsets from `value_pos`, so the suffix `data[value_pos:]` determines
the result; the two leading bytes are the tag and the length byte, and the
missing-byte checks `value_pos + 2 > len(data)` /
`value_pos + 2 + ln_len > len(data)` become length checks on the suffix). -/
def parseValueTLV : List Nat → Option (List Nat)
  | [] => none
  | [_] => none
  | tag :: lengthByte :: rest =>
    if Nat.testBit lengthByte 7 then
      let lnLen := lengthByte % 128
      if rest.length < lnLen then none
      else
        let length := (rest.take lnLen).foldl (fun a b => (a <<< 8) ||| b) 0
        decodeTLV tag length ((rest.drop lnLen).take length)
    else
      decodeTLV tag lengthByte (rest.take lengthByte)

/-- `_parse_response`: locate the first occurrence of the encoded request
OID in the response buffer, then decode the immediately following TLV. -/
def parseResponse (data encodedOid : List Nat) : Option (List Nat) :=
  match findSublist data encodedOid with
  | none => none
  | some pos => parseValueTLV (data.drop (pos + encodedOid.length))

/-- Truthiness of the parser's result (`if val:`): `None` and the empty
string are falsy. -/
def pyTruthyBytes : Option (List Nat) → Bool
  | none => false
  | some l => !l.isEmpty

/-- The retry loop of the raw-socket `snmp_get` (lines 282–293):
`attempts = retries + 1` iterations; `recv i` is the datagram received on
attempt `i` (`none` for a timeout / socket error, which the source absorbs
and retries).  Returns the first truthy parse, else `none`. -/
def rawSnmpGet (attempts : Nat) (recv : Nat → Option (List Nat)) (encodedOid : List Nat) :
    Option (List Nat) :=
  go attempts 0
where
  go : Nat → Nat → Option (List Nat)
    | 0, _ => none
    | n + 1, i =>
      match recv i with
      | none => go n (i + 1)
      | some data =>
        let val := parseResponse data encodedOid
        if pyTruthyBytes val then val else go n (i + 1)

/-! ## `snmp_client.py` — pysnmp-backed `snmp_get` (lines 60–99)

The outcome of one `getCmd` round for a given message-processing version
is abstracted as an oracle `String → ProbeOutcome` (the ip, community,
port, timeout and retries are fixed for the call): `errInd` is a non-empty
`errorIndication` (this includes a timeout after the configured retries),
`errStat` a non-zero SNMP `errorStatus`, `exn` a raised exception (which
the source's outer `try` turns into an immediate `None`), and `ok v` a
decoded value.
-/

/-- Outcome of one pysnmp `getCmd` attempt for one protocol version. -/
inductive ProbeOutcome where
  | errInd
  | errStat
  | exn
  | ok (v : String)
  deriving DecidableEq

/-- The `for ver in versions` loop: return the value of the first version
that succeeds, skip to the next version on an error indication or error
status, abort with `None` on an exception. -/
def tryVersions (oracle : String → ProbeOutcome) : List String → Option String
  | [] => none
  | v :: rest =>
    match oracle v with
    | .ok s => some s
    | .exn => none
    | .errInd => tryVersions oracle rest
    | .errStat => tryVersions oracle rest

/-- `snmp_get` (library path): version selection from the `version`
argument, falling back to the `METRO_SNMP_VERSION` environment value
(Python `version or os.getenv(...)`, then `.strip()`), then the
version-fallback loop.  With nothing forced the order is v2c then v1. -/
def snmpGetLib (version : Option String) (envVersion : String)
    (oracle : String → ProbeOutcome) : Option String :=
  let forced := stripStr (pyGetOr version envVersion)
  let versions :=
    if forced = "2c" ∨ forced = "2" ∨ forced = "v2c" then ["2c"]
    else if forced = "1" ∨ forced = "v1" then ["1"]
    else ["2c", "1"]
  tryVersions oracle versions

/-! ## `snmp_client.py` — timeout/retry configuration (lines 46–58, 69–70,
276–277)

Timeouts are modelled as rationals, retry counts as integers.  An
environment read can be unset, set to an unparseable string, or set to a
parsed number.
-/

/-- Result of reading and parsing an environment variable. -/
inductive EnvRead (α : Type) where
  | unset
  | unparseable
  | value (v : α)

/-- Clamp of `_parse_timeout_env`: `max(0.1, min(val, 10.0))`. -/
def clampTimeout (v : ℚ) : ℚ := max (1 / 10) (min v 10)

/-- Clamp of `_parse_retries_env`: `max(0, min(val, 5))`. -/
def clampRetries (v : ℤ) : ℤ := max 0 (min v 5)

/-- `_parse_timeout_env`: an unset variable falls back to the default
string and is clamped; a parse failure returns the default unclamped; a
parsed value is clamped. -/
def parseTimeoutEnv : EnvRead ℚ → ℚ → ℚ
  | .unset, d => clampTimeout d
  | .unparseable, d => d
  | .value v, _ => clampTimeout v

/-- `_parse_retries_env`, same shape as `parseTimeoutEnv`. -/
def parseRetriesEnv : EnvRead ℤ → ℤ → ℤ
  | .unset, d => clampRetries d
  | .unparseable, d => d
  | .value v, _ => clampRetries v

/-- Effective timeout of the library-path `snmp_get` (line 69): an explicit
`timeout` argument is used as passed; only the environment fallback goes
through `_parse_timeout_env` (default 2.0). -/
def effTimeoutLib (param : Option ℚ) (env : EnvRead ℚ) : ℚ :=
  match param with
  | some t => t
  | none => parseTimeoutEnv env 2

/-- Effective retries of the library-path `snmp_get` (line 70), default 1. -/
def effRetriesLib (param : Option ℤ) (env : EnvRead ℤ) : ℤ :=
  match param with
  | some r => r
  | none => parseRetriesEnv env 1

/-- Effective timeout of the raw-socket `snmp_get` (line 277): the argument
or the constant 2.0 — no environment read, no clamp. -/
def effTimeoutRaw (param : Option ℚ) : ℚ := param.getD 2

/-- Effective retries of the raw-socket `snmp_get` (line 276): the argument
or the constant 1 — no clamp. -/
def effRetriesRaw (param : Option ℤ) : ℤ := param.getD 1

/-! ## `real_backend.py` — OID constants and session registry -/

def sysDescrOid : String := "1.3.6.1.2.1.1.1.0"
def sysObjectIdOid : String := "1.3.6.1.2.1.1.2.0"
def sysUpTimeOid : String := "1.3.6.1.2.1.1.3.0"
def sysNameOid : String := "1.3.6.1.2.1.1.5.0"
def proximEnterpriseOid : String := "1.3.6.1.4.1.841"
def proximProductDescrOid : String := "1.3.6.1.4.1.841.1.1.2.1.5.7"
def proximSystemNameOid : String := "1.3.6.1.4.1.841.1.1.2.1.5.8"

/-- One entry of the `SESSIONS` dict (the keys written by
`start_session` / `refresh_session_summary`). -/
structure SessData where
  ip : String
  device_type : String
  status : String
  name : String
  system_name : Option String
  created_at : String
  radio_mode : String
  bandwidth : String
  channel : String
  ssid : String
  community : String
  last_sysDescr : Option String
  deriving DecidableEq

/-- The module-level registry state: the `SESSIONS` dict (as an
association list, newest first) and the `NEXT_SESSION_ID` counter. -/
structure RegState where
  sessions : List (Nat × SessData)
  nextSessionId : Nat
  deriving DecidableEq

/-- Module initialisation: `SESSIONS = {}`, `NEXT_SESSION_ID = 1`. -/
def initialState : RegState := ⟨[], 1⟩

/-- `SESSIONS.get(session_id)`. -/
def lookupSession (st : RegState) (id : Nat) : Option SessData :=
  st.sessions.lookup id

/-- The `SessionStartRequest` fields that the embedded logic consults (the
SNMP overrides `community`/`version`/`port` are fixed inside the probe
oracle). -/
structure StartReq where
  ip : String
  device_type : String
  oid : Option String

/-- Typed failure of `start_session` (`HTTPException 400, "SNMP not
responding on device ..."` — `DeviceNotResponding` in the spec taxonomy). -/
inductive StartErr where
  | deviceNotResponding
  deriving DecidableEq

/-- Successful `start_session` response fields used by the claims. -/
structure StartOk where
  session_id : Nat
  verified_oid : String
  verified_value : String
  system_name : Option String
  deriving DecidableEq

/-- The liveness candidate list of `start_session` (lines 677–682):
requested OID (default sysDescr), then sysUpTime, then the Proxim
product-description and system-name OIDs. -/
def candidateOids (req : StartReq) : List String :=
  [pyGetOr req.oid sysDescrOid, sysUpTimeOid, proximProductDescrOid, proximSystemNameOid]

/-- The liveness loop (lines 683–690): first OID whose probe is truthy and
differs from the `"Simulated SNMP Response"` sentinel. -/
def firstLive (oracle : String → Option String) : List String → Option (String × String)
  | [] => none
  | oid :: rest =>
    match oracle oid with
    | some v =>
      if v ≠ "" ∧ v ≠ "Simulated SNMP Response" then some (oid, v)
      else firstLive oracle rest
    | none => firstLive oracle rest

/-- `start_session` (lines 666–726): probe liveness; on failure raise
before touching the registry; on success allocate `NEXT_SESSION_ID`,
increment it, resolve the system name (sysName, else Proxim systemName)
and store the new session.  `oracle oid` is `snmp_get(ip, community, oid,
...)` for this request. -/
def startSession (req : StartReq) (community : String) (oracle : String → Option String)
    (st : RegState) : Except StartErr StartOk × RegState :=
  match firstLive oracle (candidateOids req) with
  | none => (.error .deviceNotResponding, st)
  | some (okOid, okValue) =>
    let sessionId := st.nextSessionId
    let sysName := pyOrOpt (oracle sysNameOid) (oracle proximSystemNameOid)
    let sess : SessData :=
      { ip := req.ip
        device_type := req.device_type
        status := "active"
        name := pyGetOr sysName ("Station Radio " ++ req.ip)
        system_name := sysName
        created_at := "utcnow"
        radio_mode := "Access Point"
        bandwidth := "20MHz"
        channel := "Auto"
        ssid := "MetroNet-Real"
        community := community
        last_sysDescr := none }
    (.ok { session_id := sessionId
           verified_oid := okOid
           verified_value := okValue
           system_name := sysName },
     { sessions := (sessionId, sess) :: st.sessions
       nextSessionId := st.nextSessionId + 1 })

/-- In-place mutation of one `SESSIONS` entry, as a keyed replacement. -/
def updateSession (st : RegState) (id : Nat) (f : SessData → SessData) : RegState :=
  { st with sessions := st.sessions.map (fun kv => if kv.1 = id then (kv.1, f kv.2) else kv) }

/-- Typed failure of the session lookups (`HTTPException 404`). -/
inductive SessErr where
  | notFound
  deriving DecidableEq

/-- `refresh_session_summary` response fields. -/
structure RefreshOk where
  session_id : Nat
  ip : String
  system_name : Option String
  sysDescr : Option String
  sysUpTime : Option String
  status : String
  deriving DecidableEq

/-- `refresh_session_summary` (lines 750–779): re-probe sysDescr,
sysName/proximSystemName and sysUpTime; assign a cached field only when
the Python `or`-chain produced a truthy value (which preserves the cached
value when the new probe fails). -/
def refreshSession (id : Nat) (oracle : String → Option String) (st : RegState) :
    Except SessErr RefreshOk × RegState :=
  match lookupSession st id with
  | none => (.error .notFound, st)
  | some sess =>
    let descr := pyOrOpt (oracle sysDescrOid) sess.last_sysDescr
    let st1 := if pyTruthyOpt descr then
        updateSession st id (fun s => { s with last_sysDescr := descr }) else st
    let name := pyOrOpt (pyOrOpt (oracle sysNameOid) (oracle proximSystemNameOid))
        sess.system_name
    let st2 := if pyTruthyOpt name then
        updateSession st1 id (fun s => { s with system_name := name }) else st1
    let uptime := if pyTruthyOpt (oracle sysUpTimeOid) then oracle sysUpTimeOid else none
    let sess2 := (lookupSession st2 id).getD sess
    (.ok { session_id := id
           ip := sess.ip
           system_name := sess2.system_name
           sysDescr := sess2.last_sysDescr
           sysUpTime := uptime
           status := sess.status },
     st2)

/-! ## `real_backend.py` — SNMPv3 credential prober (`probe_snmp_v3`,
lines 360–424) -/

/-- One SNMPv3 credential combination from the nested loops. -/
structure V3Combo where
  user : String
  authKey : Option String
  privKey : Option String
  authProto : Option String
  privProto : Option String
  deriving DecidableEq

/-- The inner `for oid in oids` loop: every iteration issues one
`snmp_get_v3` call; a truthy value breaks out of the OID loop.  Returns
the attempted `(combo, oid)` pairs in order. -/
def v3TryOids (oracle : V3Combo → String → Option String) (c : V3Combo) :
    List String → List (V3Combo × String)
  | [] => []
  | oid :: rest =>
    (c, oid) :: (if pyTruthyOpt (oracle c oid) then [] else v3TryOids oracle c rest)

/-- The nested credential loops of `probe_snmp_v3`: all `(combo, oid)`
pairs for which `snmp_get_v3` is actually invoked.  A combination with a
truthy priv protocol but no truthy auth protocol or no truthy priv key is
skipped before any request (`if p_proto and not (a_proto and p_key):
continue`). -/
def v3Attempts (usernames : List String) (authKeys privKeys authProtos privProtos :
    List (Option String)) (oids : List String)
    (oracle : V3Combo → String → Option String) : List (V3Combo × String) :=
  usernames.flatMap fun u =>
    authKeys.flatMap fun ak =>
      privKeys.flatMap fun pk =>
        authProtos.flatMap fun ap =>
          privProtos.flatMap fun pp =>
            if pyTruthyOpt pp && !(pyTruthyOpt ap && pyTruthyOpt pk) then []
            else v3TryOids oracle ⟨u, ak, pk, ap, pp⟩ oids

/-! ## `network_scanner.py` — classification in `scan_ip` (lines 159–165)

Strings are compared through their character lists so that the kernel can
evaluate the predicates. -/

/-- `str.lower()` (ASCII case folding as used by the keyword heuristic). -/
def lowerStr (s : String) : String := ⟨s.data.map Char.toLower⟩

/-- `a.startswith(b)`. -/
def startsWithStr (s pre : String) : Bool := pre.data.isPrefixOf s.data

/-- Python `pat in hay` substring test. -/
def containsSub (hay pat : String) : Bool :=
  hay.data.tails.any (fun t => pat.data.isPrefixOf t)

/-- The classification step of `scan_ip`: `is_proxim` iff `sys_objectid`
starts with the Proxim enterprise OID; `device_type` is `"Station Radio"`
exactly for Proxim responders; `is_station_radio` also accepts a
`"radio"` keyword in the lowered description.  `sysName` is recorded but
never consulted by the classification. -/
def classifyScanIp (sysDescr sysObjectId sysName : String) : String × Bool :=
  let _ := sysName
  let isProxim := startsWithStr sysObjectId proximEnterpriseOid
  (if isProxim then "Station Radio" else "Unknown",
   isProxim || containsSub (lowerStr sysDescr) "radio")

/-! ## `network_scanner.py` — `scan_for_snmp_devices` (lines 124–239)

The dispatch loop runs on the caller's thread; probe threads are
represented by the events they generate: `start ip` when
`threading.Thread(...).start()` runs and `joinAll` when the
`for t in threads: t.join(); threads = []` drain runs.  The trace of
these events is what the host-limit and concurrency claims are about.
-/

/-- A network entry as produced by `get_local_networks`. -/
structure NetInfo where
  base : String
  adapter : String

/-- One observable event of the dispatch loop. -/
inductive ScanEv where
  | start (ip : String)
  | joinAll

/-- The dispatcher's state: the length of the `threads` list, the
`attempted_hosts` counter, the `stop_scanning` flag, and the event trace
so far. -/
structure ScanSt where
  threads : Nat
  attempted : Nat
  stop : Bool
  events : List ScanEv

/-- `base.count('.')`. -/
def countDots (s : String) : Nat := (s.data.filter (· = '.')).length

/-- Start one probe thread, then drain the batch if the `threads` list has
reached `max_threads` (`if len(threads) >= max_threads: join all;
threads = []`). -/
def startThread (ip : String) (maxT : Nat) (s : ScanSt) : ScanSt :=
  if maxT ≤ s.threads + 1 then
    ⟨0, s.attempted, s.stop, s.events ++ [.start ip, .joinAll]⟩
  else
    ⟨s.threads + 1, s.attempted, s.stop, s.events ++ [.start ip]⟩

/-- The "standard" host loop (lines 213–229), used for /24 and /8 bases:
check the cumulative `attempted_hosts` counter against `limit_hosts`
(setting `stop_scanning` and breaking when reached), increment it, and
dispatch the probe thread. -/
def stdLoop (maxT : Nat) (limit : Option Nat) (base : String) :
    List Nat → ScanSt → ScanSt
  | [], s => s
  | host :: rest, s =>
    match limit with
    | some n =>
      if n ≤ s.attempted then { s with stop := true }
      else stdLoop maxT limit base rest
        (startThread (base ++ toString host) maxT { s with attempted := s.attempted + 1 })
    | none =>
      stdLoop maxT limit base rest
        (startThread (base ++ toString host) maxT { s with attempted := s.attempted + 1 })

/-- The /16 sampled subnet×host grid (lines 195–208).  Note that this
branch dispatches its probes without consulting `limit_hosts` or touching
`attempted_hosts`. -/
def gridLoop (maxT : Nat) (base : String) (s : ScanSt) : ScanSt :=
  (([0, 1, 2, 5, 10, 20, 50, 100].flatMap fun subnet =>
      [1, 10, 20, 50, 100, 200, 254].map fun host => (subnet, host)) : List (Nat × Nat)).foldl
    (fun s p => startThread (base ++ toString p.1 ++ "." ++ toString p.2) maxT s) s

/-- Scan of one network: a three-dot base is a /24 (`range(1, 255)`), a
two-dot base the /16 grid, anything else the limited /8 sweep
(`range(1, 20)`). -/
def processNet (maxT : Nat) (limit : Option Nat) (s : ScanSt) (net : NetInfo) : ScanSt :=
  if countDots net.base = 3 then stdLoop maxT limit net.base (List.range' 1 254) s
  else if countDots net.base = 2 then gridLoop maxT net.base s
  else stdLoop maxT limit net.base (List.range' 1 19) s

/-- The outer `for network in networks` loop, which breaks as soon as
`stop_scanning` is set. -/
def scanNets (maxT : Nat) (limit : Option Nat) : List NetInfo → ScanSt → ScanSt
  | [], s => s
  | n :: rest, s => if s.stop then s else scanNets maxT limit rest (processNet maxT limit s n)

/-- The full event trace of one `scan_for_snmp_devices` call, including
the final drain of the remaining threads. -/
def scanTrace (nets : List NetInfo) (limit : Option Nat) (maxT : Nat) : List ScanEv :=
  (scanNets maxT limit nets ⟨0, 0, false, []⟩).events ++ [.joinAll]

/-- Whether an event is a probe dispatch. -/
def isStart : ScanEv → Bool
  | .start _ => true
  | .joinAll => false

/-- Number of host probes attempted in a trace. -/
def numStarts (evs : List ScanEv) : Nat := (evs.filter isStart).length

/-- Fold step tracking `(threads now in flight, maximum ever in flight)`:
a dispatched probe raises the count, a drain returns it to zero. -/
def inFlightStep (p : Nat × Nat) : ScanEv → Nat × Nat
  | .start _ => (p.1 + 1, max p.2 (p.1 + 1))
  | .joinAll => (0, p.2)

/-- `(in flight after the trace, maximum simultaneously in flight)`. -/
def inFlightState (evs : List ScanEv) : Nat × Nat :=
  evs.foldl inFlightStep (0, 0)

/-- The largest number of probe threads simultaneously in flight at any
point of the trace. -/
def maxInFlight (evs : List ScanEv) : Nat := (inFlightState evs).2

/-- Invariant of the dispatch loop relating the event trace to the
`threads` list: the in-flight fold over the trace matches the length of
the `threads` list, the running maximum stays bounded by `maxT`, and the
current batch is strictly below `maxT` (it is drained as soon as it
reaches `maxT`). -/
def GoodInv (maxT : Nat) (s : ScanSt) : Prop :=
  (inFlightState s.events).1 = s.threads
  ∧ (inFlightState s.events).2 ≤ maxT
  ∧ s.threads < maxT

/-! ## Claim C4 — enterprise-OID match wins over the keyword heuristic -/

/-- **C4.** For every `(sysDescr, sysObjectId, sysName)` input to the
`scan_ip` classification, if `sysObjectId` starts with the vendor
enterprise prefix `1.3.6.1.4.1.841` then the resulting candidate fields
are `device_type = "Station Radio"` and `is_station_radio = true`, no
matter what keywords (`"switch"`, …) the description contains: the
enterprise-ID match always wins over the keyword heuristic. -/
theorem classify_enterprise_oid_wins (sysDescr sysObjectId sysName : String)
    (h : startsWithStr sysObjectId proximEnterpriseOid = true) :
    classifyScanIp sysDescr sysObjectId sysName = ("Station Radio", true) := by
  simp [classifyScanIp, h]

/-- Witness for C4: a description matching the network-equipment keyword
set together with a Proxim `sysObjectID` still classifies as a Station
Radio. -/
theorem classify_enterprise_oid_wins_witness :
    startsWithStr "1.3.6.1.4.1.841.1.1.2" proximEnterpriseOid = true
    ∧ classifyScanIp "Industrial Ethernet Switch" "1.3.6.1.4.1.841.1.1.2" "sw1"
      = ("Station Radio", true) :=
  ⟨by decide, classify_enterprise_oid_wins _ _ _ (by decide)⟩

/-! ## Claim C5 — v2c→v1 fallback, `None` on failure, no exceptions -/

/-- **C5.** With no explicitly forced version (argument `None`, environment
variable empty), `snmp_get` tries v2c first and returns its decoded value
when it succeeds; on an error indication or error status from v2c it
falls back to v1 and returns that value when v1 succeeds; and it returns
`None` — the function's only failure channel, no exception escapes — when
both versions fail (timeouts after the configured retries surface as
error indications). -/
theorem snmp_get_version_fallback (o1 o2 o3 : String → ProbeOutcome) (v w : String)
    (h1 : o1 "2c" = .ok v)
    (h2 : o2 "2c" = .errInd ∨ o2 "2c" = .errStat) (h2b : o2 "1" = .ok w)
    (h3 : o3 "2c" = .errInd ∨ o3 "2c" = .errStat)
    (h3b : o3 "1" = .errInd ∨ o3 "1" = .errStat) :
    snmpGetLib none "" o1 = some v ∧ snmpGetLib none "" o2 = some w
    ∧ snmpGetLib none "" o3 = none := by
  have hv : ∀ o : String → ProbeOutcome, snmpGetLib none "" o = tryVersions o ["2c", "1"] :=
    fun o => rfl
  refine ⟨?_, ?_, ?_⟩
  · rw [hv]; simp [tryVersions, h1]
  · rw [hv]; rcases h2 with h | h <;> simp [tryVersions, h, h2b]
  · rw [hv]; rcases h3 with h | h <;> rcases h3b with h' | h' <;> simp [tryVersions, h, h']

/-- Witness for C5: three concrete per-version outcome tables exercising
the success, fallback and double-failure paths. -/
theorem snmp_get_version_fallback_witness :
    (fun o1 o2 o3 : String → ProbeOutcome =>
      snmpGetLib none "" o1 = some "SysDescr-A" ∧ snmpGetLib none "" o2 = some "SysDescr-B"
      ∧ snmpGetLib none "" o3 = none)
      (fun _ => .ok "SysDescr-A")
      (fun ver => if ver = "2c" then .errStat else .ok "SysDescr-B")
      (fun _ => .errInd) :=
  snmp_get_version_fallback _ _ _ "SysDescr-A" "SysDescr-B" rfl (Or.inr rfl) rfl
    (Or.inl rfl) (Or.inl rfl)

/-! ## Claim C7 — invalid SNMPv3 combinations are never attempted -/

/-- A `(combo, oid)` pair attempted by the OID loop carries the combo the
loop was entered with. -/
theorem v3TryOids_mem_combo (oracle : V3Combo → String → Option String) (c c' : V3Combo)
    (oid : String) : ∀ oids, (c', oid) ∈ v3TryOids oracle c oids → c' = c := by
  intro oids
  induction oids with
  | nil => intro h; simp [v3TryOids] at h
  | cons o rest ih =>
    intro h
    simp only [v3TryOids, List.mem_cons] at h
    rcases h with h | h
    · exact congrArg Prod.fst h
    · split at h
      · simp at h
      · exact ih h

/-- **C7.** Every credential combination for which `probe_snmp_v3`
actually invokes `snmp_get_v3` satisfies: if its priv protocol is set
(truthy) then both its auth protocol and its priv key are set.  A
combination with a priv protocol but no auth protocol or no priv key is
skipped before any request, so its invocation count is zero. -/
theorem v3_invalid_combo_never_attempted (usernames : List String)
    (authKeys privKeys authProtos privProtos : List (Option String)) (oids : List String)
    (oracle : V3Combo → String → Option String) (c : V3Combo) (oid : String)
    (hmem : (c, oid) ∈ v3Attempts usernames authKeys privKeys authProtos privProtos oids oracle)
    (hp : pyTruthyOpt c.privProto = true) :
    pyTruthyOpt c.authProto = true ∧ pyTruthyOpt c.privKey = true := by
  simp only [v3Attempts, List.mem_flatMap] at hmem
  obtain ⟨u, -, ak, -, pk, -, ap, -, pp, -, hmem⟩ := hmem
  split at hmem
  case isTrue hguard => simp at hmem
  case isFalse hguard =>
    have hc : c = ⟨u, ak, pk, ap, pp⟩ := v3TryOids_mem_combo oracle _ _ _ _ hmem
    subst hc
    simp only [Bool.and_eq_true, Bool.not_eq_true'] at hguard ⊢
    simp only [pyTruthyOpt] at hp ⊢
    rcases hap : pyTruthyOpt ap with _ | _ <;> rcases hpk : pyTruthyOpt pk with _ | _ <;>
      simp_all [pyTruthyOpt]

/-- Witness for C7: a valid combination that is attempted, for which the
theorem's conclusion holds. -/
theorem v3_invalid_combo_never_attempted_witness :
    (({ user := "admin", authKey := some "authkey1", privKey := some "privkey1",
        authProto := some "MD5", privProto := some "AES" } : V3Combo), sysDescrOid) ∈
      v3Attempts ["admin"] [some "authkey1"] [some "privkey1"] [some "MD5"] [some "AES"]
        [sysDescrOid] (fun _ _ => (none : Option String))
    ∧ (pyTruthyOpt (some "MD5") = true ∧ pyTruthyOpt (some "privkey1") = true) :=
  ⟨by decide,
    v3_invalid_combo_never_attempted ["admin"] [some "authkey1"] [some "privkey1"]
      [some "MD5"] [some "AES"] [sysDescrOid] (fun _ _ => (none : Option String))
      { user := "admin", authKey := some "authkey1", privKey := some "privkey1",
        authProto := some "MD5", privProto := some "AES" } sysDescrOid (by decide) (by decide)⟩

/-! ## Claim C8 — the numeric clamp (corrected)

The clamp into `[0.1, 10]` / `[0, 5]` is applied only to values parsed
from the environment variables in the library-backed path.  An explicit
per-call `timeout=`/`retries=` argument bypasses the clamp, and the
raw-socket path clamps nothing, so the claim as stated fails.
-/

/-- Counterexample to C8 as stated: an explicit per-call timeout of 100 s
is used unclamped by the library-backed path, an explicit timeout of
100 s and retry count of 9 are used unclamped by the raw-socket path. -/
theorem clamp_counterexample :
    effTimeoutLib (some 100) .unset = 100 ∧ ¬((100 : ℚ) ≤ 10)
    ∧ effTimeoutRaw (some 100) = 100
    ∧ effRetriesRaw (some 9) = 9 ∧ ¬((9 : ℤ) ≤ 5) :=
  ⟨rfl, by norm_num, rfl, rfl, by norm_num⟩

/-- **C8 (amended).** Only environment-sourced values are clamped: for
every environment read, the effective env-derived timeout lies in
`[0.1, 10]` and the env-derived retry count in `[0, 5]` (out-of-range
values are clamped, never rejected), while an explicit per-call timeout
or retry argument — in the library-backed and the raw-socket path alike —
is passed through unclamped. -/
theorem env_clamp_amended (env : EnvRead ℚ) (envR : EnvRead ℤ) (t : ℚ) (r : ℤ) :
    (1 / 10 ≤ parseTimeoutEnv env 2 ∧ parseTimeoutEnv env 2 ≤ 10)
    ∧ (0 ≤ parseRetriesEnv envR 1 ∧ parseRetriesEnv envR 1 ≤ 5)
    ∧ effTimeoutLib (some t) env = t ∧ effTimeoutRaw (some t) = t
    ∧ effRetriesLib (some r) envR = r ∧ effRetriesRaw (some r) = r := by
  refine ⟨?_, ?_, rfl, rfl, rfl, rfl⟩
  · cases env with
    | unset => constructor <;> norm_num [parseTimeoutEnv, clampTimeout]
    | unparseable => constructor <;> norm_num [parseTimeoutEnv]
    | value v =>
      refine ⟨le_max_left _ _, max_le (by norm_num) (min_le_right _ _)⟩
  · cases envR with
    | unset => constructor <;> norm_num [parseRetriesEnv, clampRetries]
    | unparseable => constructor <;> norm_num [parseRetriesEnv]
    | value v =>
      refine ⟨le_max_left _ _, max_le (by norm_num) (min_le_right _ _)⟩

/-! ## Claim C1 — `start_session` on a dead device -/

/-- The liveness loop finds nothing when every candidate probe returns no
value. -/
theorem firstLive_eq_none (oracle : String → Option String) (l : List String)
    (h : ∀ oid ∈ l, oracle oid = none) : firstLive oracle l = none := by
  induction l with
  | nil => rfl
  | cons a t ih =>
    simp only [firstLive, h a (List.mem_cons_self a t)]
    exact ih fun oid hm => h oid (List.mem_cons_of_mem a hm)

/-- **C1.** If every liveness-probe OID (the requested OID or sysDescr,
then sysUpTime, then the Proxim product-description and system-name OIDs)
returns no value, `start_session` fails with the `DeviceNotResponding`
error and leaves the registry untouched — no session stored,
`NEXT_SESSION_ID` not incremented — while any successful start from the
same state receives exactly the current `NEXT_SESSION_ID` and bumps the
counter by one; the counter starts at 1. -/
theorem start_session_dead_device (st : RegState) (req req2 : StartReq)
    (community community2 : String) (o o2 : String → Option String)
    (r : StartOk) (st2 : RegState)
    (hdead : ∀ oid ∈ candidateOids req, o oid = none)
    (hok : startSession req2 community2 o2 st = (.ok r, st2)) :
    startSession req community o st = (.error .deviceNotResponding, st)
    ∧ r.session_id = st.nextSessionId
    ∧ st2.nextSessionId = st.nextSessionId + 1
    ∧ initialState.nextSessionId = 1 := by
  refine ⟨?_, ?_, ?_, rfl⟩
  · simp only [startSession, firstLive_eq_none o _ hdead]
  all_goals {
    unfold startSession at hok
    rcases hfl : firstLive o2 (candidateOids req2) with - | ⟨okOid, okValue⟩ <;>
      rw [hfl] at hok
    · exact absurd (congrArg Prod.fst hok) (by simp)
    · have h1 := congrArg Prod.fst hok
      have h2 := congrArg Prod.snd hok
      simp only [Except.ok.injEq] at h1
      first
      | exact congrArg StartOk.session_id h1.symm
      | exact congrArg RegState.nextSessionId h2.symm
  }

/-- Witness for C1: from the initial registry, an all-timeout oracle fails
without consuming id 1, and a live oracle then gets id 1 and moves the
counter to 2. -/
theorem start_session_dead_device_witness :
    startSession ⟨"10.0.0.5", "station_radio", none⟩ "public" (fun _ => none) initialState
      = (.error .deviceNotResponding, initialState)
    ∧ (startSession ⟨"10.0.0.5", "station_radio", none⟩ "public"
          (fun _ => some "Proxim Tsunami MP-825") initialState
        |>.fst.map StartOk.session_id) = .ok initialState.nextSessionId
    ∧ (startSession ⟨"10.0.0.5", "station_radio", none⟩ "public"
          (fun _ => some "Proxim Tsunami MP-825") initialState
        |>.snd.nextSessionId) = initialState.nextSessionId + 1
    ∧ initialState.nextSessionId = 1 := by
  have h := start_session_dead_device initialState
    ⟨"10.0.0.5", "station_radio", none⟩ ⟨"10.0.0.5", "station_radio", none⟩
    "public" "public" (fun _ => none) (fun _ => some "Proxim Tsunami MP-825")
    { session_id := 1, verified_oid := sysDescrOid,
      verified_value := "Proxim Tsunami MP-825",
      system_name := some "Proxim Tsunami MP-825" }
    { sessions := [(1,
        { ip := "10.0.0.5", device_type := "station_radio", status := "active",
          name := "Proxim Tsunami MP-825",
          system_name := some "Proxim Tsunami MP-825", created_at := "utcnow",
          radio_mode := "Access Point", bandwidth := "20MHz", channel := "Auto",
          ssid := "MetroNet-Real", community := "public", last_sysDescr := none })],
      nextSessionId := 2 }
    (fun _ _ => rfl) rfl
  exact ⟨h.1, by rw [show (startSession ⟨"10.0.0.5", "station_radio", none⟩ "public"
      (fun _ => some "Proxim Tsunami MP-825") initialState |>.fst)
        = .ok { session_id := 1, verified_oid := sysDescrOid,
                verified_value := "Proxim Tsunami MP-825",
                system_name := some "Proxim Tsunami MP-825" } from rfl]; rfl,
    by decide, h.2.2.2⟩

/-! ## Claim C2 — `refresh_session_summary` keeps last-known-good values -/

/-- Keyed in-place replacement in an association list, seen through
lookup. -/
theorem lookup_map_update (l : List (Nat × SessData)) (id : Nat) (f : SessData → SessData) :
    (l.map (fun kv => if kv.1 = id then (kv.1, f kv.2) else kv)).lookup id
      = (l.lookup id).map f := by
  induction l with
  | nil => rfl
  | cons kv t ih =>
    rcases kv with ⟨k, v⟩
    simp only [List.map_cons]
    by_cases hk : k = id
    · subst hk
      rw [if_pos rfl]
      simp [List.lookup]
    · rw [if_neg hk]
      have hbeq : (id == k) = false := beq_eq_false_iff_ne.mpr (Ne.symm hk)
      simp [List.lookup, hbeq, ih]

/-- Looking up the session that a keyed in-place update targeted yields
the updated record. -/
theorem lookup_updateSession (st : RegState) (id : Nat) (f : SessData → SessData) :
    lookupSession (updateSession st id f) id = (lookupSession st id).map f := by
  simpa [lookupSession, updateSession] using lookup_map_update st.sessions id f

/-- **C2.** `refresh_session_summary` only overwrites a cached field with
a truthy re-probe result: when the new sysDescr probe fails the cached
`last_sysDescr` is preserved rather than cleared, and when both sysName
probes fail the cached `system_name` is preserved (last-known-good
semantics). -/
theorem refresh_preserves_last_known (st : RegState) (id : Nat) (sess : SessData)
    (o1 o2 : String → Option String)
    (hs : lookupSession st id = some sess)
    (h1 : o1 sysDescrOid = none)
    (h2 : o2 sysNameOid = none) (h3 : o2 proximSystemNameOid = none) :
    ((lookupSession (refreshSession id o1 st).2 id).map SessData.last_sysDescr)
      = some sess.last_sysDescr
    ∧ ((lookupSession (refreshSession id o2 st).2 id).map SessData.system_name)
      = some sess.system_name := by
  constructor
  · have hdescr : pyOrOpt (o1 sysDescrOid) sess.last_sysDescr = sess.last_sysDescr := by
      simp [pyOrOpt, h1, pyTruthyOpt]
    simp only [refreshSession, hs, hdescr]
    by_cases hc1 : pyTruthyOpt sess.last_sysDescr = true <;>
      by_cases hc2 : pyTruthyOpt (pyOrOpt (pyOrOpt (o1 sysNameOid) (o1 proximSystemNameOid))
          sess.system_name) = true <;>
      simp [hc1, hc2, lookup_updateSession, hs]
  · have hname : pyOrOpt (pyOrOpt (o2 sysNameOid) (o2 proximSystemNameOid)) sess.system_name
        = sess.system_name := by
      simp [pyOrOpt, h2, h3, pyTruthyOpt]
    simp only [refreshSession, hs, hname]
    by_cases hc1 : pyTruthyOpt (pyOrOpt (o2 sysDescrOid) sess.last_sysDescr) = true <;>
      by_cases hc2 : pyTruthyOpt sess.system_name = true <;>
      simp [hc1, hc2, lookup_updateSession, hs]

/-- Witness for C2: a stored session with a cached description and name
keeps both when every re-probe fails. -/
theorem refresh_preserves_last_known_witness :
    lookupSession
        ⟨[(1, { ip := "10.0.0.5", device_type := "station_radio", status := "active",
                name := "SR-2000", system_name := some "SR-2000", created_at := "t0",
                radio_mode := "Access Point", bandwidth := "20MHz", channel := "Auto",
                ssid := "MetroNet-Real", community := "public",
                last_sysDescr := some "Proxim Tsunami MP-825" })], 2⟩ 1
      = some { ip := "10.0.0.5", device_type := "station_radio", status := "active",
               name := "SR-2000", system_name := some "SR-2000", created_at := "t0",
               radio_mode := "Access Point", bandwidth := "20MHz", channel := "Auto",
               ssid := "MetroNet-Real", community := "public",
               last_sysDescr := some "Proxim Tsunami MP-825" }
    ∧ ((lookupSession (refreshSession 1 (fun _ => none)
          ⟨[(1, { ip := "10.0.0.5", device_type := "station_radio", status := "active",
                  name := "SR-2000", system_name := some "SR-2000", created_at := "t0",
                  radio_mode := "Access Point", bandwidth := "20MHz", channel := "Auto",
                  ssid := "MetroNet-Real", community := "public",
                  last_sysDescr := some "Proxim Tsunami MP-825" })], 2⟩).2 1).map
        SessData.last_sysDescr) = some (some "Proxim Tsunami MP-825")
    ∧ ((lookupSession (refreshSession 1 (fun _ => none)
          ⟨[(1, { ip := "10.0.0.5", device_type := "station_radio", status := "active",
                  name := "SR-2000", system_name := some "SR-2000", created_at := "t0",
                  radio_mode := "Access Point", bandwidth := "20MHz", channel := "Auto",
                  ssid := "MetroNet-Real", community := "public",
                  last_sysDescr := some "Proxim Tsunami MP-825" })], 2⟩).2 1).map
        SessData.system_name) = some (some "SR-2000") := by
  refine ⟨by decide, ?_⟩
  have h := refresh_preserves_last_known
    ⟨[(1, { ip := "10.0.0.5", device_type := "station_radio", status := "active",
            name := "SR-2000", system_name := some "SR-2000", created_at := "t0",
            radio_mode := "Access Point", bandwidth := "20MHz", channel := "Auto",
            ssid := "MetroNet-Real", community := "public",
            last_sysDescr := some "Proxim Tsunami MP-825" })], 2⟩ 1
    { ip := "10.0.0.5", device_type := "station_radio", status := "active",
      name := "SR-2000", system_name := some "SR-2000", created_at := "t0",
      radio_mode := "Access Point", bandwidth := "20MHz", channel := "Auto",
      ssid := "MetroNet-Real", community := "public",
      last_sysDescr := some "Proxim Tsunami MP-825" }
    (fun _ => none) (fun _ => none) (by decide) rfl rfl rfl
  exact h

/-! ## Claim C6 — BER GetRequest / response round-trip (corrected)

`_parse_response` decodes the TLV after the **first** occurrence of the
encoded OID in the buffer (`data.find`), so a buffer may contain the
encoded OID immediately followed by the `"Test Device"` OCTET STRING and
still not decode to `"Test Device"` when an earlier occurrence of the OID
is followed by something else.  The round-trip holds whenever the
occurrence followed by the OCTET STRING is the first one.
-/

/-- A pattern that starts the buffer is found at index 0. -/
theorem findSublist_of_isPrefixOf (pat data : List Nat) (h : pat.isPrefixOf data = true) :
    findSublist data pat = some 0 := by
  unfold findSublist
  cases data with
  | nil => simp [findSublistAux, h]
  | cons a t => simp [findSublistAux, h]

/-- Counterexample to C6 as stated: a buffer whose first OID occurrence is
followed by a NULL TLV, but which does contain (further on) the encoded
OID immediately followed by the OCTET STRING `"Test Device"` — the parser
returns `none`, not `"Test Device"`.  The first two conjuncts exhibit the
OID-then-OCTET-STRING pattern inside the buffer. -/
theorem ber_first_occurrence_counterexample :
    ((encodeOid sysDescrOid ++ [5, 0] ++ encodeOid sysDescrOid
        ++ (4 :: 11 :: strBytes "Test Device")).drop ((encodeOid sysDescrOid).length + 2)).take
        (encodeOid sysDescrOid).length = encodeOid sysDescrOid
    ∧ ((encodeOid sysDescrOid ++ [5, 0] ++ encodeOid sysDescrOid
        ++ (4 :: 11 :: strBytes "Test Device")).drop
        ((encodeOid sysDescrOid).length + 2 + (encodeOid sysDescrOid).length))
      = 4 :: 11 :: strBytes "Test Device"
    ∧ parseResponse (encodeOid sysDescrOid ++ [5, 0] ++ encodeOid sysDescrOid
        ++ (4 :: 11 :: strBytes "Test Device")) (encodeOid sysDescrOid) = none := by
  refine ⟨by decide, by decide, by decide⟩

/-- **C6 (amended).** Encoding a GetRequest for OID `1.3.6.1.2.1.1.1.0`
with community `public` produces exactly the BER message
SEQUENCE(INTEGER version 1, OCTET STRING `public`, `0xA0` PDU(request-id,
error-status 0, error-index 0, var-bind list((OID, NULL)))) — spelled out
byte by byte for request-id 1 — and parsing any response buffer in which
the **first** occurrence of that encoded OID is immediately followed by an
OCTET STRING TLV with value `"Test Device"` returns `"Test Device"`. -/
theorem ber_get_request_roundtrip (pre post : List Nat)
    (hfind : findSublist
        (pre ++ encodeOid sysDescrOid ++ (4 :: 11 :: strBytes "Test Device") ++ post)
        (encodeOid sysDescrOid) = some pre.length) :
    buildGetRequest "public" sysDescrOid 1
      = [48, 38,
         2, 1, 1,
         4, 6, 112, 117, 98, 108, 105, 99,
         160, 25,
         2, 1, 1,
         2, 1, 0,
         2, 1, 0,
         48, 14, 48, 12, 6, 8, 43, 6, 1, 2, 1, 1, 1, 0, 5, 0]
    ∧ parseResponse
        (pre ++ encodeOid sysDescrOid ++ (4 :: 11 :: strBytes "Test Device") ++ post)
        (encodeOid sysDescrOid) = some (strBytes "Test Device") := by
  refine ⟨by decide, ?_⟩
  unfold parseResponse
  simp only [hfind]
  have hassoc : pre ++ encodeOid sysDescrOid ++ (4 :: 11 :: strBytes "Test Device") ++ post
      = (pre ++ encodeOid sysDescrOid) ++ (4 :: 11 :: (strBytes "Test Device" ++ post)) := by
    simp [List.append_assoc]
  rw [hassoc,
    show pre.length + (encodeOid sysDescrOid).length = (pre ++ encodeOid sysDescrOid).length
      from (List.length_append _ _).symm,
    List.drop_left]
  simp only [parseValueTLV]
  rw [show Nat.testBit 11 7 = false from rfl]
  simp only [Bool.false_eq_true, if_false]
  rw [List.take_left' (show (strBytes "Test Device").length = 11 from rfl)]
  decide

/-- Witness for C6: the synthetic response consisting of exactly the
encoded OID followed by the OCTET STRING TLV. -/
theorem ber_get_request_roundtrip_witness :
    findSublist
        (([] : List Nat) ++ encodeOid sysDescrOid ++ (4 :: 11 :: strBytes "Test Device") ++ [])
        (encodeOid sysDescrOid) = some (List.length ([] : List Nat))
    ∧ (buildGetRequest "public" sysDescrOid 1
         = [48, 38,
            2, 1, 1,
            4, 6, 112, 117, 98, 108, 105, 99,
            160, 25,
            2, 1, 1,
            2, 1, 0,
            2, 1, 0,
            48, 14, 48, 12, 6, 8, 43, 6, 1, 2, 1, 1, 1, 0, 5, 0]
       ∧ parseResponse
           (([] : List Nat) ++ encodeOid sysDescrOid ++ (4 :: 11 :: strBytes "Test Device") ++ [])
           (encodeOid sysDescrOid) = some (strBytes "Test Device")) :=
  ⟨by decide, ber_get_request_roundtrip [] [] (by decide)⟩

/-! ## Claim C10 — empty / NUL-only OCTET STRING is indistinguishable from
no response -/

/-- Helper: the parser maps a response whose OCTET STRING value consists
only of NUL bytes (in particular the empty string) to `none`. -/
theorem parse_zero_octets (w : List Nat) (hz : ∀ b ∈ w, b = 0) (hlen : w.length < 128) :
    parseResponse (encodeOid sysDescrOid ++ (4 :: w.length :: w)) (encodeOid sysDescrOid)
      = none := by
  unfold parseResponse
  simp only [findSublist_of_isPrefixOf _ _
    (List.isPrefixOf_iff_prefix.mpr (List.prefix_append _ _))]
  rw [Nat.zero_add, List.drop_left]
  simp only [parseValueTLV]
  rw [Nat.testBit_eq_false_of_lt (show w.length < 2 ^ 7 from hlen)]
  simp only [Bool.false_eq_true, if_false]
  rw [List.take_length w]
  unfold decodeTLV
  have hstrip : stripNulls w = [] := by
    unfold stripNulls
    have h1 : w.dropWhile (· = 0) = [] := by
      rw [List.dropWhile_eq_nil_iff]
      intro x hx
      simp [hz x hx]
    rw [h1]
    rfl
  simp [hstrip]

/-- **C10.** A response whose located OCTET STRING value is empty or
all-NUL parses to `none`, and since the raw-socket retry loop accepts
only truthy parse results, `snmp_get` then returns `none` after
exhausting its attempts: at the probe interface a device answering with
an empty sysDescr is indistinguishable from one that never answers. -/
theorem empty_octet_string_indistinguishable (v : List Nat) (n : Nat)
    (recv : Nat → Option (List Nat))
    (hz : ∀ b ∈ v, b = 0) (hlen : v.length < 128)
    (hrecv : ∀ i d, recv i = some d →
      ∃ w, (∀ b ∈ w, b = 0) ∧ w.length < 128
        ∧ d = encodeOid sysDescrOid ++ (4 :: w.length :: w)) :
    parseResponse (encodeOid sysDescrOid ++ (4 :: v.length :: v)) (encodeOid sysDescrOid) = none
    ∧ rawSnmpGet n recv (encodeOid sysDescrOid) = none := by
  refine ⟨parse_zero_octets v hz hlen, ?_⟩
  unfold rawSnmpGet
  suffices h : ∀ m i, rawSnmpGet.go recv (encodeOid sysDescrOid) m i = none from h n 0
  intro m
  induction m with
  | zero => intro i; rfl
  | succ m ih =>
    intro i
    unfold rawSnmpGet.go
    rcases hr : recv i with - | d
    · exact ih (i + 1)
    · obtain ⟨w, hw0, hwlen, hd⟩ := hrecv i d hr
      subst hd
      simp only [parse_zero_octets w hw0 hwlen, pyTruthyBytes, Bool.false_eq_true, if_false]
      exact ih (i + 1)

/-- Witness for C10: a two-NUL-byte OCTET STRING value, three attempts,
every datagram carrying that response. -/
theorem empty_octet_string_indistinguishable_witness :
    parseResponse (encodeOid sysDescrOid ++ (4 :: [0, 0].length :: [0, 0]))
        (encodeOid sysDescrOid) = none
    ∧ rawSnmpGet 3 (fun _ => some (encodeOid sysDescrOid ++ [4, 2, 0, 0]))
        (encodeOid sysDescrOid) = none := by
  have h := empty_octet_string_indistinguishable [0, 0] 3
    (fun _ => some (encodeOid sysDescrOid ++ [4, 2, 0, 0]))
    (by decide) (by decide)
    (fun i d hid => ⟨[0, 0], by decide, by decide, by
      have : encodeOid sysDescrOid ++ [4, 2, 0, 0] = d := Option.some.inj hid
      rw [← this]; rfl⟩)
  exact h

/-! ## Scanner bookkeeping lemmas (shared by C3 and C9) -/

/-- `startThread` does not touch the `attempted_hosts` counter. -/
theorem startThread_attempted (ip : String) (maxT : Nat) (s : ScanSt) :
    (startThread ip maxT s).attempted = s.attempted := by
  unfold startThread
  split <;> rfl

/-- `startThread` does not touch the `stop_scanning` flag. -/
theorem startThread_stop (ip : String) (maxT : Nat) (s : ScanSt) :
    (startThread ip maxT s).stop = s.stop := by
  unfold startThread
  split <;> rfl

/-- Probe counting distributes over trace concatenation. -/
theorem numStarts_append (a b : List ScanEv) :
    numStarts (a ++ b) = numStarts a + numStarts b := by
  simp [numStarts, List.filter_append]

/-- `startThread` dispatches exactly one probe. -/
theorem startThread_numStarts (ip : String) (maxT : Nat) (s : ScanSt) :
    numStarts (startThread ip maxT s).events = numStarts s.events + 1 := by
  unfold startThread
  split <;> simp [numStarts_append, numStarts, isStart]

/-- One fold step over an appended event. -/
theorem inFlightState_append_single (evs : List ScanEv) (e : ScanEv) :
    inFlightState (evs ++ [e]) = inFlightStep (inFlightState evs) e := by
  simp [inFlightState, List.foldl_append]

/-! ## Claim C3 — the host limit (corrected)

The `attempted_hosts`/`limit_hosts` accounting lives only in the standard
host loop used for /24 and /8 bases (lines 213–229); the /16 sampled grid
(lines 195–208) dispatches its probes without consulting the limit, so a
/16 range defeats `hostLimit`.
-/

set_option maxRecDepth 4000 in
/-- Counterexample to C3 as stated: scanning the single /16 range
`192.168.` with `limit_hosts = 1` dispatches 56 host probes (the full
8-subnet × 7-host sampled grid), not at most 1. -/
theorem scan_host_limit_counterexample :
    numStarts (scanTrace [⟨"192.168.", "Fallback"⟩] (some 1) 20) = 56 ∧ 1 < 56 :=
  ⟨by decide, by decide⟩

/-- Standard-loop accounting under a host limit: the counter never
exceeds `max` of its start value and the limit, and grows exactly by the
number of probes dispatched. -/
theorem stdLoop_limit_spec (maxT n : Nat) (base : String) (hosts : List Nat) :
    ∀ s : ScanSt,
      (stdLoop maxT (some n) base hosts s).attempted ≤ max s.attempted n
      ∧ numStarts (stdLoop maxT (some n) base hosts s).events + s.attempted
          = numStarts s.events + (stdLoop maxT (some n) base hosts s).attempted := by
  induction hosts with
  | nil => exact fun s => ⟨le_max_left _ _, rfl⟩
  | cons h t ih =>
    intro s
    simp only [stdLoop]
    by_cases hc : n ≤ s.attempted
    · rw [if_pos hc]
      exact ⟨le_max_left _ _, rfl⟩
    · rw [if_neg hc]
      obtain ⟨ih1, ih2⟩ :=
        ih (startThread (base ++ toString h) maxT { s with attempted := s.attempted + 1 })
      rw [startThread_attempted] at ih1 ih2
      rw [startThread_numStarts] at ih2
      dsimp only at ih1 ih2
      constructor
      · refine ih1.trans ?_
        rw [max_eq_right (show s.attempted + 1 ≤ n by omega)]
        exact le_max_right _ _
      · omega

/-- Per-network accounting for bases that are not two-dot (/16) prefixes,
via the standard loop. -/
theorem processNet_limit_spec (maxT n : Nat) (net : NetInfo) (s : ScanSt)
    (hnd : countDots net.base ≠ 2) :
    (processNet maxT (some n) s net).attempted ≤ max s.attempted n
    ∧ numStarts (processNet maxT (some n) s net).events + s.attempted
        = numStarts s.events + (processNet maxT (some n) s net).attempted := by
  unfold processNet
  by_cases h3 : countDots net.base = 3
  · rw [if_pos h3]
    exact stdLoop_limit_spec maxT n net.base (List.range' 1 254) s
  · rw [if_neg h3, if_neg hnd]
    exact stdLoop_limit_spec maxT n net.base (List.range' 1 19) s

/-- **C3 (amended).** For every list of ranges containing no /16 base
(two-dot prefix) and every host limit `n`, the scanner dispatches at most
`n` host probes in total: once the cumulative attempted-host counter
reaches `n`, no new probe is enqueued.  (A /16 range is scanned through
the sampled subnet grid, which bypasses the limit — see the
counterexample.) -/
theorem scan_host_limit_amended (nets : List NetInfo) (n maxT : Nat)
    (hno16 : ∀ net ∈ nets, countDots net.base ≠ 2) :
    numStarts (scanTrace nets (some n) maxT) ≤ n := by
  suffices h : ∀ (ns : List NetInfo) (s : ScanSt), (∀ net ∈ ns, countDots net.base ≠ 2) →
      numStarts s.events = s.attempted → s.attempted ≤ n →
      numStarts (scanNets maxT (some n) ns s).events = (scanNets maxT (some n) ns s).attempted
      ∧ (scanNets maxT (some n) ns s).attempted ≤ n by
    obtain ⟨h1, h2⟩ := h nets ⟨0, 0, false, []⟩ hno16 rfl (Nat.zero_le n)
    unfold scanTrace
    rw [numStarts_append]
    have hj : numStarts [ScanEv.joinAll] = 0 := rfl
    omega
  intro ns
  induction ns with
  | nil => exact fun s _ h1 h2 => ⟨h1, h2⟩
  | cons net rest ih =>
    intro s hall h1 h2
    simp only [scanNets]
    by_cases hstop : s.stop = true
    · rw [if_pos hstop]
      exact ⟨h1, h2⟩
    · rw [if_neg hstop]
      obtain ⟨p1, p2⟩ := processNet_limit_spec maxT n net s
        (hall net (List.mem_cons_self net rest))
      refine ih (processNet maxT (some n) s net)
        (fun m hm => hall m (List.mem_cons_of_mem net hm)) (by omega) ?_
      calc (processNet maxT (some n) s net).attempted
          ≤ max s.attempted n := p1
        _ = n := max_eq_right h2

/-- Witness for C3 (amended): two /24 ranges under `limit_hosts = 10`
dispatch exactly at most 10 probes. -/
theorem scan_host_limit_amended_witness :
    (∀ net ∈ [(⟨"192.168.1.", "a"⟩ : NetInfo), ⟨"10.0.0.", "b"⟩], countDots net.base ≠ 2)
    ∧ numStarts (scanTrace [⟨"192.168.1.", "a"⟩, ⟨"10.0.0.", "b"⟩] (some 10) 20) ≤ 10 :=
  ⟨by decide, scan_host_limit_amended [⟨"192.168.1.", "a"⟩, ⟨"10.0.0.", "b"⟩] 10 20 (by decide)⟩

/-! ## Claim C9 — the concurrency cap (corrected)

The batch is drained whenever its size reaches `max_threads`, so the
number of in-flight probe threads never exceeds `max_threads` — provided
`max_threads ≥ 1`.  With the degenerate cap `max_threads = 0` the loop
still starts one probe before the (immediate) drain, exceeding the cap,
so the universally quantified claim fails at 0.
-/

/-- Counterexample to C9 as stated: with `max_threads = 0` the scan of a
/8 range still has one probe in flight at some point, exceeding the cap. -/
theorem scan_concurrency_counterexample :
    maxInFlight (scanTrace [⟨"10.", "Fallback"⟩] none 0) = 1 ∧ 0 < 1 :=
  ⟨by decide, by decide⟩

/-- `startThread` preserves the dispatch-loop invariant when the cap is
at least 1. -/
theorem startThread_good (ip : String) (maxT : Nat) (s : ScanSt)
    (h1 : 1 ≤ maxT) (hg : GoodInv maxT s) : GoodInv maxT (startThread ip maxT s) := by
  obtain ⟨g1, g2, g3⟩ := hg
  have hsplit : s.events ++ [ScanEv.start ip, ScanEv.joinAll]
      = (s.events ++ [ScanEv.start ip]) ++ [ScanEv.joinAll] := by simp
  unfold startThread
  split
  case isTrue hle =>
    refine ⟨?_, ?_, h1⟩
    · show (inFlightState (s.events ++ [ScanEv.start ip, ScanEv.joinAll])).1 = 0
      rw [hsplit, inFlightState_append_single, inFlightState_append_single]
      simp [inFlightStep]
    · show (inFlightState (s.events ++ [ScanEv.start ip, ScanEv.joinAll])).2 ≤ maxT
      rw [hsplit, inFlightState_append_single, inFlightState_append_single]
      simp only [inFlightStep, g1]
      exact max_le g2 g3
  case isFalse hlt =>
    refine ⟨?_, ?_, show s.threads + 1 < maxT by omega⟩
    · show (inFlightState (s.events ++ [ScanEv.start ip])).1 = s.threads + 1
      rw [inFlightState_append_single]
      simp [inFlightStep, g1]
    · show (inFlightState (s.events ++ [ScanEv.start ip])).2 ≤ maxT
      rw [inFlightState_append_single]
      simp only [inFlightStep, g1]
      exact max_le g2 (by omega)

/-- The standard host loop preserves the dispatch-loop invariant. -/
theorem stdLoop_good (maxT : Nat) (limit : Option Nat) (base : String) (hosts : List Nat)
    (h1 : 1 ≤ maxT) :
    ∀ s, GoodInv maxT s → GoodInv maxT (stdLoop maxT limit base hosts s) := by
  induction hosts with
  | nil => exact fun s hg => hg
  | cons h t ih =>
    intro s hg
    cases limit with
    | none =>
      simp only [stdLoop]
      exact ih _ (startThread_good _ _ _ h1 hg)
    | some n =>
      simp only [stdLoop]
      by_cases hc : n ≤ s.attempted
      · rw [if_pos hc]
        exact hg
      · rw [if_neg hc]
        exact ih _ (startThread_good _ _ _ h1 hg)

/-- Folding `startThread` over any worklist preserves the invariant. -/
theorem foldl_startThread_good {α : Type} (maxT : Nat) (f : α → String) (h1 : 1 ≤ maxT) :
    ∀ (l : List α) (s : ScanSt), GoodInv maxT s →
      GoodInv maxT (l.foldl (fun s a => startThread (f a) maxT s) s) := by
  intro l
  induction l with
  | nil => exact fun s hg => hg
  | cons a t ih => exact fun s hg => ih _ (startThread_good _ _ _ h1 hg)

/-- Scanning one network preserves the invariant. -/
theorem processNet_good (maxT : Nat) (limit : Option Nat) (net : NetInfo) (s : ScanSt)
    (h1 : 1 ≤ maxT) (hg : GoodInv maxT s) :
    GoodInv maxT (processNet maxT limit s net) := by
  unfold processNet
  split
  · exact stdLoop_good _ _ _ _ h1 _ hg
  split
  · exact foldl_startThread_good maxT
      (fun p : Nat × Nat => net.base ++ toString p.1 ++ "." ++ toString p.2) h1 _ s hg
  · exact stdLoop_good _ _ _ _ h1 _ hg

/-- The outer network loop preserves the invariant. -/
theorem scanNets_good (maxT : Nat) (limit : Option Nat) (nets : List NetInfo)
    (h1 : 1 ≤ maxT) :
    ∀ s, GoodInv maxT s → GoodInv maxT (scanNets maxT limit nets s) := by
  induction nets with
  | nil => exact fun s hg => hg
  | cons net rest ih =>
    intro s hg
    simp only [scanNets]
    by_cases hstop : s.stop = true
    · rw [if_pos hstop]
      exact hg
    · rw [if_neg hstop]
      exact ih _ (processNet_good maxT limit net s h1 hg)

/-- **C9 (amended).** For every scan invocation with concurrency cap
`max_threads ≥ 1`, at no point of the dispatch trace are more than
`max_threads` probe threads simultaneously in flight: a new probe thread
is started only after the entire in-flight batch of `max_threads` threads
has been joined.  (At the degenerate cap 0 one probe still runs — see the
counterexample.) -/
theorem scan_concurrency_amended (nets : List NetInfo) (limit : Option Nat) (maxT : Nat)
    (h1 : 1 ≤ maxT) : maxInFlight (scanTrace nets limit maxT) ≤ maxT := by
  have hg : GoodInv maxT (scanNets maxT limit nets ⟨0, 0, false, []⟩) :=
    scanNets_good maxT limit nets h1 _ ⟨rfl, Nat.zero_le _, h1⟩
  unfold scanTrace maxInFlight
  rw [inFlightState_append_single]
  simpa [inFlightStep] using hg.2.1

/-- Witness for C9 (amended): a /8 scan with cap 3 never has more than 3
probes in flight. -/
theorem scan_concurrency_amended_witness :
    1 ≤ 3 ∧ maxInFlight (scanTrace [⟨"10.", "Fallback"⟩] none 3) ≤ 3 :=
  ⟨by decide, scan_concurrency_amended [⟨"10.", "Fallback"⟩] none 3 (by decide)⟩

end MetroEMS
